import Mathlib

/-!
Shallow embedding of the Serverless-Backend-API handlers
(lambda/typescript/src/users-handler.ts and assets-handler.ts).

External effects (DynamoDB reads/writes, sleeps, presigned-URL minting) are
modelled explicitly: store snapshots at each DynamoDB call are parameters,
fallible calls are driven by outcome oracles, and sleeps are recorded as a
list of waited durations. Thrown JavaScript exceptions are modelled by the
HResult.thrown constructor; an exception carries its name field, which is
the only part the code inspects.
-/

namespace ServerlessAPI

/-- JSON-style scalar values carried in request bodies and in DynamoDB
update-expression attribute maps. -/
inductive JVal where
  | s : String → JVal
  | n : Int → JVal
deriving DecidableEq, Repr

/-- A thrown JavaScript error, identified by the name field that the
handlers inspect (ConditionalCheckFailedException or anything else). -/
structure JsError where
  name : String
deriving DecidableEq, Repr

/-- The User item shape stored in the users table, as built by createUser. -/
structure User where
  userId : String
  email : String
  name : Option String
  department : Option String
  createdAt : Int
  ttl : Int
deriving DecidableEq, Repr

/-- The Asset item shape stored in the assets table, as built by uploadAsset. -/
structure Asset where
  assetId : String
  fileName : String
  contentType : String
  s3Key : String
  s3Bucket : String
  status : String
  createdAt : Int
  ttl : Int
deriving DecidableEq, Repr

/-- Structural model of the JSON response bodies the handlers serialize. -/
inductive Body where
  | errMsg : String → Body
  | msgOnly : String → Body
  | userItem : User → Body
  | userMsg : String → User → Body
  | assetItem : Asset → Body
  | assetMsg : String → Asset → Body
  | assetCreated : String → Asset → String → Body
  | download : String → String → String → Body
  | updatedAttrs : List (String × JVal) → Body
deriving DecidableEq, Repr

/-- An API Gateway proxy response: status code plus serialized body. -/
structure Response where
  statusCode : Nat
  body : Body
deriving DecidableEq, Repr

/-- What a handler invocation produces: a returned response, or a thrown
exception propagating to the caller. -/
inductive HResult where
  | resp : Response → HResult
  | thrown : JsError → HResult
deriving DecidableEq, Repr

/-! ## getUser: retry loop with exponential backoff (users-handler.ts) -/

/-- Outcome of one DynamoDB GetCommand send: a successful response whose
Item is present or absent, or a thrown error. -/
inductive GetOutcome where
  | ok : Option User → GetOutcome
  | err : JsError → GetOutcome
deriving DecidableEq, Repr

/-- The retries constant of getUser (3 total attempts). -/
def retries : Nat := 3

/-- The backoff base delay of getUser, in milliseconds. -/
def backoffMs : Nat := 100

/-- One run of the getUser retry loop body and its continuation state:
result none means the loop fell through without returning or throwing. -/
structure GetRun where
  result : Option HResult
  waits : List Nat
  calls : Nat
deriving DecidableEq, Repr

/-- The getUser for-loop, indexed by remaining iterations (fuel) and the
current attempt number. Each iteration sends a GetCommand: an ok outcome
returns 404 or 200 immediately; a thrown error sleeps
backoffMs * 2 ^ attempt and continues when attempt < retries - 1, and
rethrows on the last attempt. -/
def getUserLoop (oracle : Nat → GetOutcome) : Nat → Nat → GetRun
  | 0, _ => ⟨none, [], 0⟩
  | fuel + 1, attempt =>
    match oracle attempt with
    | .ok none => ⟨some (.resp ⟨404, .errMsg "User not found"⟩), [], 1⟩
    | .ok (some u) => ⟨some (.resp ⟨200, .userItem u⟩), [], 1⟩
    | .err e =>
      if attempt < retries - 1 then
        let r := getUserLoop oracle fuel (attempt + 1)
        ⟨r.result, backoffMs * 2 ^ attempt :: r.waits, r.calls + 1⟩
      else
        ⟨some (.thrown e), [], 1⟩

/-- The fallback response placed after the getUser loop. -/
def getUserFallback : Response := ⟨500, .errMsg "Failed to get user"⟩

/-- Final outcome of getUser: the loop result, number of GetCommand sends,
and the sleeps performed. -/
structure GetUserOut where
  result : HResult
  waits : List Nat
  calls : Nat
deriving DecidableEq, Repr

/-- getUser: run the loop from attempt 0 with retries iterations available;
if the loop falls through, return the fallback 500 response. -/
def getUser (oracle : Nat → GetOutcome) : GetUserOut :=
  let r := getUserLoop oracle retries 0
  ⟨r.result.getD (.resp getUserFallback), r.waits, r.calls⟩

/-! ## getAsset: single-shot read (assets-handler.ts) -/

/-- Outcome of the single DynamoDB GetCommand in getAsset. -/
inductive GetAssetOutcome where
  | ok : Option Asset → GetAssetOutcome
  | err : JsError → GetAssetOutcome
deriving DecidableEq, Repr

/-- getAsset sends one GetCommand: missing item yields 404, present item
yields 200, and a thrown error is logged and rethrown (no retry loop). -/
def getAsset (outcome : GetAssetOutcome) : HResult :=
  match outcome with
  | .ok none => .resp ⟨404, .errMsg "Asset not found"⟩
  | .ok (some a) => .resp ⟨200, .assetItem a⟩
  | .err e => .thrown e

/-! ## createUser: idempotent create with conditional write (users-handler.ts) -/

/-- A table of the users DynamoDB table, keyed by userId. -/
abbrev UserStore := List (String × User)

/-- A table of the assets DynamoDB table, keyed by assetId. -/
abbrev AssetStore := List (String × Asset)

/-- JavaScript truthiness restricted to string-valued-or-absent body fields:
absent and the empty string are falsy, every other string is truthy. -/
def truthy : Option String → Bool
  | none => false
  | some s => s ≠ ""

/-- The request body fields createUser reads. Each field is absent or a
string, matching the JSON bodies the handler is specified for. -/
structure CreateUserBody where
  userId : Option String
  email : Option String
  name : Option String
  department : Option String
deriving DecidableEq, Repr

/-- The item createUser builds for a new user: createdAt is now, ttl is
now + 90 days in seconds, and name and department are copied only when
truthy (if body.name then item.name = body.name). -/
def mkUser (body : CreateUserBody) (now : Int) : User :=
  { userId := body.userId.getD ""
    email := body.email.getD ""
    name := if truthy body.name then body.name else none
    department := if truthy body.department then body.department else none
    createdAt := now
    ttl := now + 90 * 24 * 60 * 60 }

/-- The error name the conditional-write failure carries. -/
def condCheckFailed : JsError := ⟨"ConditionalCheckFailedException"⟩

/-- Store snapshots seen by the three DynamoDB calls createUser can make:
the initial point-read, the conditional put, and the re-read after a
conditional-check failure. Distinct snapshots model concurrent writers
acting between the calls; a sequential run uses one snapshot for all. -/
structure CreateEnv where
  sRead : UserStore
  sPut : UserStore
  sReread : UserStore
deriving Repr

/-- What a createUser invocation produced: its result, the users-table
state after its last store interaction, and whether a PutCommand was
sent at all. -/
structure CreateOut where
  result : HResult
  finalStore : UserStore
  putAttempted : Bool
deriving Repr

/-- createUser: validate userId and email by truthiness (400 on failure);
point-read by userId and return the existing item with 200 when found;
otherwise attempt a conditional put requiring the userId attribute to be
absent, returning 201 on success; on ConditionalCheckFailedException,
re-read and return the now-existing item with 200, rethrowing the error
when the re-read finds nothing. -/
def createUser (body : CreateUserBody) (now : Int) (env : CreateEnv) : CreateOut :=
  if !truthy body.userId || !truthy body.email then
    ⟨.resp ⟨400, .errMsg "userId and email are required"⟩, env.sRead, false⟩
  else
    let uid := body.userId.getD ""
    match env.sRead.lookup uid with
    | some u =>
      ⟨.resp ⟨200, .userMsg "User already exists" u⟩, env.sRead, false⟩
    | none =>
      let item := mkUser body now
      match env.sPut.lookup uid with
      | none =>
        ⟨.resp ⟨201, .userMsg "User created" item⟩, (uid, item) :: env.sPut, true⟩
      | some _ =>
        match env.sReread.lookup uid with
        | some u =>
          ⟨.resp ⟨200, .userMsg "User already exists" u⟩, env.sReread, true⟩
        | none => ⟨.thrown condCheckFailed, env.sReread, true⟩

/-- A sequential (interference-free) createUser call: all three store
snapshots coincide. -/
def createUserSeq (body : CreateUserBody) (now : Int) (s : UserStore) : CreateOut :=
  createUser body now ⟨s, s, s⟩

/-! ## uploadAsset: idempotent create plus presigned upload URL
(assets-handler.ts) -/

/-- The request body fields uploadAsset reads. -/
structure UploadAssetBody where
  assetId : Option String
  fileName : Option String
  contentType : Option String
deriving DecidableEq, Repr

/-- The contentType resolution of uploadAsset:
body.contentType falsy yields the application/octet-stream default. -/
def resolveContentType (ct : Option String) : String :=
  if truthy ct then ct.getD "" else "application/octet-stream"

/-- The item uploadAsset builds for a new asset: the s3Key is derived as
assets/assetId/fileName, status starts at pending, and ttl is
createdAt + 30 days in seconds. -/
def mkAsset (body : UploadAssetBody) (now : Int) (bucketName : String) : Asset :=
  { assetId := body.assetId.getD ""
    fileName := body.fileName.getD ""
    contentType := resolveContentType body.contentType
    s3Key := "assets/" ++ body.assetId.getD "" ++ "/" ++ body.fileName.getD ""
    s3Bucket := bucketName
    status := "pending"
    createdAt := now
    ttl := now + 30 * 24 * 60 * 60 }

/-- Store snapshots for the DynamoDB calls of uploadAsset, as in CreateEnv. -/
structure AssetCreateEnv where
  sRead : AssetStore
  sPut : AssetStore
  sReread : AssetStore
deriving Repr

/-- What an uploadAsset invocation produced. -/
structure AssetCreateOut where
  result : HResult
  finalStore : AssetStore
  putAttempted : Bool
deriving Repr

/-- uploadAsset: same idempotent-create protocol as createUser over the
assets table, and on a successful conditional put it additionally mints a
presigned upload URL (the signing call is external and side-effect-free,
modelled by the uploadUrl parameter) and returns it in the 201 body. -/
def uploadAsset (body : UploadAssetBody) (now : Int) (bucketName : String)
    (uploadUrl : String) (env : AssetCreateEnv) : AssetCreateOut :=
  if !truthy body.assetId || !truthy body.fileName then
    ⟨.resp ⟨400, .errMsg "assetId and fileName are required"⟩, env.sRead, false⟩
  else
    let aid := body.assetId.getD ""
    match env.sRead.lookup aid with
    | some a =>
      ⟨.resp ⟨200, .assetMsg "Asset already exists" a⟩, env.sRead, false⟩
    | none =>
      let item := mkAsset body now bucketName
      match env.sPut.lookup aid with
      | none =>
        ⟨.resp ⟨201, .assetCreated "Asset metadata created" item uploadUrl⟩,
          (aid, item) :: env.sPut, true⟩
      | some _ =>
        match env.sReread.lookup aid with
        | some a =>
          ⟨.resp ⟨200, .assetMsg "Asset already exists" a⟩, env.sReread, true⟩
        | none => ⟨.thrown condCheckFailed, env.sReread, true⟩

/-- A sequential (interference-free) uploadAsset call. -/
def uploadAssetSeq (body : UploadAssetBody) (now : Int) (bucketName : String)
    (uploadUrl : String) (s : AssetStore) : AssetCreateOut :=
  uploadAsset body now bucketName uploadUrl ⟨s, s, s⟩

/-! ## updateUser: pre-read then dynamic UpdateCommand (users-handler.ts) -/

/-- A parsed JSON request body for updateUser: the entries of the object in
order, as Object.entries iterates them. JSON.parse yields objects with
pairwise distinct keys; theorems state that hypothesis where needed. -/
abbrev UBody := List (String × JVal)

/-- JavaScript object property assignment on a key-to-value map: overwrite
the entry when the key is present, otherwise append it. -/
def assocInsert (m : List (String × JVal)) (k : String) (v : JVal) :
    List (String × JVal) :=
  match m with
  | [] => [(k, v)]
  | (k₀, v₀) :: rest =>
    if k₀ = k then (k, v) :: rest else (k₀, v₀) :: assocInsert rest k v

/-- The update-expression SET clauses updateUser pushes for the body
entries: every key other than userId contributes the clause
key = :key, in iteration order. -/
def buildSets : UBody → List (String × String)
  | [] => []
  | (k, _) :: rest =>
    if k = "userId" then buildSets rest
    else (k, ":" ++ k) :: buildSets rest

/-- The expression-attribute-values object updateUser fills: assignments
exprAttr of :key to the entry value for every non-userId key, in
iteration order, over an initial map. -/
def buildAttrs (m : List (String × JVal)) : UBody → List (String × JVal)
  | [] => m
  | (k, v) :: rest =>
    if k = "userId" then buildAttrs m rest
    else buildAttrs (assocInsert m (":" ++ k) v) rest

/-- The full UpdateCommand content updateUser constructs: the initial
clause updatedAt = :updatedAt with :updatedAt initially bound to the
current time, followed by the dynamic clauses and bindings. -/
def buildUpdate (body : UBody) (now : Int) :
    List (String × String) × List (String × JVal) :=
  (("updatedAt", ":updatedAt") :: buildSets body,
    buildAttrs [(":updatedAt", .n now)] body)

/-- The applied field set of the constructed UpdateCommand: each SET clause
paired with the value its placeholder is bound to in the final
expression-attribute-values object. -/
def appliedSets (body : UBody) (now : Int) : List (String × Option JVal) :=
  let (sets, attrs) := buildUpdate body now
  sets.map fun p => (p.1, attrs.lookup p.2)

/-- What an updateUser invocation produced: its result, whether an
UpdateCommand was sent, and the SET clauses and attribute bindings of the
command it sent (empty when none was sent). -/
structure UpdateOut where
  result : HResult
  updateSent : Bool
  sets : List (String × String)
  exprAttr : List (String × JVal)
deriving DecidableEq, Repr

/-- updateUser: point-read by userId and return 404 when no item exists
(the pre-read decides NotFound before any write); otherwise build the
UpdateCommand from the body entries, skipping the userId key, send it,
and return 200 with the ALL_NEW attributes DynamoDB reports (an external
value, modelled by the attrsReturned parameter). -/
def updateUser (body : UBody) (now : Int) (s : UserStore) (userId : String)
    (attrsReturned : List (String × JVal)) : UpdateOut :=
  match s.lookup userId with
  | none => ⟨.resp ⟨404, .errMsg "User not found"⟩, false, [], []⟩
  | some _ =>
    let c := buildUpdate body now
    ⟨.resp ⟨200, .updatedAttrs attrsReturned⟩, true, c.1, c.2⟩

/-! ## The handler boundaries: dispatch, catch-all, and the body parse
that precedes the try block (both handlers) -/

/-- The parts of an API Gateway event the handlers read: the HTTP method,
the id and action path parameters, and the raw request body string. -/
structure Event where
  httpMethod : String
  pathId : Option String
  pathAction : Option String
  rawBody : Option String
deriving DecidableEq, Repr

/-- The operations the users handler dispatches to. -/
inductive UsersOp where
  | get : String → UsersOp
  | create : UBody → UsersOp
  | update : String → UBody → UsersOp
  | delete : String → UsersOp
deriving DecidableEq, Repr

/-- The method/path dispatch of the users handler: GET, PUT and DELETE
require the id path parameter, POST takes the parsed body; none means no
case matched and the switch falls through to 405. -/
def usersDispatch (ev : Event) (body : UBody) : Option UsersOp :=
  match ev.httpMethod with
  | "GET" => ev.pathId.map .get
  | "POST" => some (.create body)
  | "PUT" => ev.pathId.map fun id => .update id body
  | "DELETE" => ev.pathId.map .delete
  | _ => none

/-- The users handler boundary. The body is parsed by JSON.parse before
the try block (parsing is external; its outcome is the parsed parameter,
consulted only when a raw body is present), so a parse exception
propagates out of the handler. Inside the try block the dispatched
operation runs (its outcome is the run parameter); an unmatched
method/path yields 405, and any exception thrown inside the try block is
caught and converted to the generic 500 response. -/
def usersHandler (ev : Event) (parsed : Except JsError UBody)
    (run : UsersOp → HResult) : HResult :=
  let parseStep : Except JsError UBody :=
    match ev.rawBody with
    | some _ => parsed
    | none => .ok []
  match parseStep with
  | .error e => .thrown e
  | .ok body =>
    let inner : HResult :=
      match usersDispatch ev body with
      | some op => run op
      | none => .resp ⟨405, .errMsg "Method not allowed"⟩
    match inner with
    | .resp r => .resp r
    | .thrown _ => .resp ⟨500, .errMsg "Internal server error"⟩

/-- The operations the assets handler dispatches to. -/
inductive AssetsOp where
  | upload : UBody → AssetsOp
  | get : String → AssetsOp
  | download : String → AssetsOp
deriving DecidableEq, Repr

/-- The method/path dispatch of the assets handler: POST takes the parsed
body, GET with an id path parameter picks download when the action path
parameter (defaulted to the empty string when falsy) equals download,
and picks a plain get otherwise. -/
def assetsDispatch (ev : Event) (body : UBody) : Option AssetsOp :=
  match ev.httpMethod with
  | "POST" => some (.upload body)
  | "GET" =>
    match ev.pathId with
    | some id =>
      if (if truthy ev.pathAction then ev.pathAction.getD "" else "") =
          "download"
      then some (.download id) else some (.get id)
    | none => none
  | _ => none

/-- The assets handler boundary, with the same shape as usersHandler:
JSON.parse runs before the try block, the dispatched operation runs
inside it, and only exceptions thrown inside the try block become the
generic 500 response. -/
def assetsHandler (ev : Event) (parsed : Except JsError UBody)
    (run : AssetsOp → HResult) : HResult :=
  let parseStep : Except JsError UBody :=
    match ev.rawBody with
    | some _ => parsed
    | none => .ok []
  match parseStep with
  | .error e => .thrown e
  | .ok body =>
    let inner : HResult :=
      match assetsDispatch ev body with
      | some op => run op
      | none => .resp ⟨405, .errMsg "Method not allowed"⟩
    match inner with
    | .resp r => .resp r
    | .thrown _ => .resp ⟨500, .errMsg "Internal server error"⟩

/-! ## Theorems about the retry-protected reads -/

/-- Claim C3, counterexample: on a read that fails on every attempt, the
code sleeps only after attempts 0 and 1 (the sleep is guarded by
attempt < retries - 1), so the wait sequence is 100ms, 200ms — not
100ms, 200ms, 400ms — and the cumulative wait before the last error is
surfaced is 300ms, not 700ms. -/
theorem getUser_backoff_total_not_700 :
    (getUser (fun _ => .err ⟨"ServiceUnavailable"⟩)).waits = [100, 200] ∧
    (getUser (fun _ => .err ⟨"ServiceUnavailable"⟩)).waits ≠ [100, 200, 400] ∧
    (getUser (fun _ => .err ⟨"ServiceUnavailable"⟩)).waits.sum = 300 ∧
    (getUser (fun _ => .err ⟨"ServiceUnavailable"⟩)).waits.sum ≠ 700 ∧
    (getUser (fun _ => .err ⟨"ServiceUnavailable"⟩)).result =
      .thrown ⟨"ServiceUnavailable"⟩ := by
  decide

/-- Claim C3, amended: for every read that fails on all attempts, the retry
wrapper waits baseDelay * 2 ^ attempt after each non-final failed attempt,
giving the backoff sequence 100ms, 200ms for attempts 0 and 1; no wait
follows the final attempt, so the cumulative wait before surfacing the
last error is 300ms, and the error surfaced is the last one. -/
theorem getUser_allFail_backoff (oracle : Nat → GetOutcome)
    (e₀ e₁ e₂ : JsError) (h0 : oracle 0 = .err e₀) (h1 : oracle 1 = .err e₁)
    (h2 : oracle 2 = .err e₂) :
    getUser oracle = ⟨.thrown e₂, [backoffMs * 2 ^ 0, backoffMs * 2 ^ 1], 3⟩ ∧
    (getUser oracle).waits.sum = 300 := by
  have h : getUser oracle = ⟨.thrown e₂, [100, 200], 3⟩ := by
    simp [getUser, getUserLoop, retries, backoffMs, h0, h1, h2]
  refine ⟨?_, by simp [h]⟩
  simpa [backoffMs] using h

/-- Witness for getUser_allFail_backoff at a concrete all-failing oracle. -/
theorem getUser_allFail_backoff_witness :
    getUser (fun _ => .err ⟨"E"⟩) =
      ⟨.thrown ⟨"E"⟩, [backoffMs * 2 ^ 0, backoffMs * 2 ^ 1], 3⟩ :=
  (getUser_allFail_backoff (fun _ => .err ⟨"E"⟩) ⟨"E"⟩ ⟨"E"⟩ ⟨"E"⟩
    rfl rfl rfl).1

/-- Claim C4: a read whose store call fails transiently exactly twice and
then succeeds still returns the 200 success response, makes exactly 3
attempts (hence no more than 3), and its cumulative wait is 300ms, at
least 100 + 200 = 300ms. -/
theorem getUser_two_failures_then_success (oracle : Nat → GetOutcome)
    (e₀ e₁ : JsError) (u : User) (h0 : oracle 0 = .err e₀)
    (h1 : oracle 1 = .err e₁) (h2 : oracle 2 = .ok (some u)) :
    (getUser oracle).result = .resp ⟨200, .userItem u⟩ ∧
    (getUser oracle).calls = 3 ∧ (getUser oracle).calls ≤ retries ∧
    (getUser oracle).waits = [100, 200] ∧
    300 ≤ (getUser oracle).waits.sum := by
  have h : getUser oracle = ⟨.resp ⟨200, .userItem u⟩, [100, 200], 3⟩ := by
    simp [getUser, getUserLoop, retries, backoffMs, h0, h1, h2]
  simp [h, retries]

/-- Witness for getUser_two_failures_then_success at a concrete oracle
failing twice then finding the item. -/
theorem getUser_two_failures_then_success_witness :
    (getUser (fun n => if n < 2 then .err ⟨"E"⟩
        else .ok (some ⟨"u1", "a@b.com", none, none, 5, 7776005⟩))).result =
      .resp ⟨200, .userItem ⟨"u1", "a@b.com", none, none, 5, 7776005⟩⟩ :=
  (getUser_two_failures_then_success _ ⟨"E"⟩ ⟨"E"⟩ _ rfl rfl rfl).1

/-- Claim C5: not-found is terminal. A user read whose first store call
reports no item returns 404 with body error User not found after exactly
one call and no backoff wait; an asset read with no stored item returns
404 with body error Asset not found (getAsset performs a single call by
construction). Both 404 bodies are a single error-string object. -/
theorem read_notFound_terminal (oracle : Nat → GetOutcome)
    (h0 : oracle 0 = .ok none) :
    getUser oracle = ⟨.resp ⟨404, .errMsg "User not found"⟩, [], 1⟩ ∧
    getAsset (.ok none) = .resp ⟨404, .errMsg "Asset not found"⟩ := by
  constructor
  · simp [getUser, getUserLoop, retries, h0]
  · rfl

/-- Witness for read_notFound_terminal at a concrete empty-store oracle. -/
theorem read_notFound_terminal_witness :
    getUser (fun _ => .ok none) =
      ⟨.resp ⟨404, .errMsg "User not found"⟩, [], 1⟩ :=
  (read_notFound_terminal (fun _ => .ok none) rfl).1

/-- Claim C10: every iteration of the getUser retry loop either returns a
response or rethrows on the final attempt, so the loop always produces a
result and the fallback 500 response placed after the loop is never the
outcome of getUser. -/
theorem getUser_fallback_unreachable :
    ∀ oracle : Nat → GetOutcome,
      (getUserLoop oracle retries 0).result.isSome ∧
      (getUser oracle).result ≠ .resp getUserFallback := by
  intro oracle
  rcases h0 : oracle 0 with u0 | e0
  · cases u0 <;> simp [getUser, getUserLoop, retries, getUserFallback, h0]
  · rcases h1 : oracle 1 with u1 | e1
    · cases u1 <;>
        simp [getUser, getUserLoop, retries, getUserFallback, h0, h1]
    · rcases h2 : oracle 2 with u2 | e2
      · cases u2 <;>
          simp [getUser, getUserLoop, retries, getUserFallback, h0, h1, h2]
      · simp [getUser, getUserLoop, retries, getUserFallback, h0, h1, h2]

/-! ## Theorems about idempotent creation -/

/-- Claim C1: create is idempotent for users and assets. After a first
successful create stores the new item, a second create with the same
identifier and equal payload returns the stored item with 200, leaves the
store unchanged, and attempts no put; in general, whenever the point-read
finds an existing item, create returns it with 200 and sends no
PutCommand. -/
theorem create_idempotent (ub : CreateUserBody) (now₁ now₂ : Int)
    (s : UserStore) (ab : UploadAssetBody) (am₁ am₂ : Int) (t : AssetStore)
    (bucket url₁ url₂ : String)
    (hu : truthy ub.userId = true) (he : truthy ub.email = true)
    (hnew : s.lookup (ub.userId.getD "") = none)
    (ha : truthy ab.assetId = true) (hf : truthy ab.fileName = true)
    (hanew : t.lookup (ab.assetId.getD "") = none) :
    ((createUserSeq ub now₁ s).finalStore =
        (ub.userId.getD "", mkUser ub now₁) :: s ∧
      createUserSeq ub now₂ (createUserSeq ub now₁ s).finalStore =
        ⟨.resp ⟨200, .userMsg "User already exists" (mkUser ub now₁)⟩,
          (createUserSeq ub now₁ s).finalStore, false⟩) ∧
    (∀ (s' : UserStore) (u : User) (n : Int),
      s'.lookup (ub.userId.getD "") = some u →
      createUserSeq ub n s' =
        ⟨.resp ⟨200, .userMsg "User already exists" u⟩, s', false⟩) ∧
    ((uploadAssetSeq ab am₁ bucket url₁ t).finalStore =
        (ab.assetId.getD "", mkAsset ab am₁ bucket) :: t ∧
      uploadAssetSeq ab am₂ bucket url₂
          (uploadAssetSeq ab am₁ bucket url₁ t).finalStore =
        ⟨.resp ⟨200, .assetMsg "Asset already exists" (mkAsset ab am₁ bucket)⟩,
          (uploadAssetSeq ab am₁ bucket url₁ t).finalStore, false⟩) ∧
    (∀ (t' : AssetStore) (a : Asset) (n : Int) (url : String),
      t'.lookup (ab.assetId.getD "") = some a →
      uploadAssetSeq ab n bucket url t' =
        ⟨.resp ⟨200, .assetMsg "Asset already exists" a⟩, t', false⟩) := by
  have h1 : createUserSeq ub now₁ s =
      ⟨.resp ⟨201, .userMsg "User created" (mkUser ub now₁)⟩,
        (ub.userId.getD "", mkUser ub now₁) :: s, true⟩ := by
    simp [createUserSeq, createUser, hu, he, hnew]
  have h2 : uploadAssetSeq ab am₁ bucket url₁ t =
      ⟨.resp ⟨201, .assetCreated "Asset metadata created"
          (mkAsset ab am₁ bucket) url₁⟩,
        (ab.assetId.getD "", mkAsset ab am₁ bucket) :: t, true⟩ := by
    simp [uploadAssetSeq, uploadAsset, ha, hf, hanew]
  refine ⟨⟨by simp [h1], ?_⟩, ?_, ⟨by simp [h2], ?_⟩, ?_⟩
  · rw [h1]
    simp [createUserSeq, createUser, hu, he, List.lookup]
  · intro s' u n hs
    simp [createUserSeq, createUser, hu, he, hs]
  · rw [h2]
    simp [uploadAssetSeq, uploadAsset, ha, hf, List.lookup]
  · intro t' a n url ht
    simp [uploadAssetSeq, uploadAsset, ha, hf, ht]

/-- Witness for create_idempotent: a concrete repeated user create returns
200 with the stored record, leaves the store unchanged and sends no put. -/
theorem create_idempotent_witness :
    createUserSeq ⟨some "u1", some "a@b.com", none, none⟩ 9
        (createUserSeq ⟨some "u1", some "a@b.com", none, none⟩ 5 []).finalStore =
      ⟨.resp ⟨200, .userMsg "User already exists"
          (mkUser ⟨some "u1", some "a@b.com", none, none⟩ 5)⟩,
        (createUserSeq ⟨some "u1", some "a@b.com", none, none⟩ 5 []).finalStore,
        false⟩ :=
  ((create_idempotent ⟨some "u1", some "a@b.com", none, none⟩ 5 9 []
    ⟨some "a1", some "f.png", none⟩ 5 9 [] "b" "url1" "url2"
    rfl rfl rfl rfl rfl rfl).1).2

/-- Claim C2: when the conditional write fails because a concurrent writer
created the record between the point-read and the put
(ConditionalCheckFailedException), create re-reads by identifier and
returns the now-existing record with 200; the lost race is recovered
internally and the invocation does not throw. -/
theorem create_race_recovered (ub : CreateUserBody) (now : Int)
    (s₁ s₂ s₃ : UserStore) (w u : User) (ab : UploadAssetBody) (anow : Int)
    (t₁ t₂ t₃ : AssetStore) (bucket url : String) (aw au : Asset)
    (hu : truthy ub.userId = true) (he : truthy ub.email = true)
    (h₁ : s₁.lookup (ub.userId.getD "") = none)
    (h₂ : s₂.lookup (ub.userId.getD "") = some w)
    (h₃ : s₃.lookup (ub.userId.getD "") = some u)
    (ha : truthy ab.assetId = true) (hf : truthy ab.fileName = true)
    (g₁ : t₁.lookup (ab.assetId.getD "") = none)
    (g₂ : t₂.lookup (ab.assetId.getD "") = some aw)
    (g₃ : t₃.lookup (ab.assetId.getD "") = some au) :
    createUser ub now ⟨s₁, s₂, s₃⟩ =
      ⟨.resp ⟨200, .userMsg "User already exists" u⟩, s₃, true⟩ ∧
    uploadAsset ab anow bucket url ⟨t₁, t₂, t₃⟩ =
      ⟨.resp ⟨200, .assetMsg "Asset already exists" au⟩, t₃, true⟩ := by
  constructor
  · simp [createUser, hu, he, h₁, h₂, h₃]
  · simp [uploadAsset, ha, hf, g₁, g₂, g₃]

/-- Witness for create_race_recovered at a concrete interleaving where a
rival record appears between the point-read and the conditional put. -/
theorem create_race_recovered_witness :
    createUser ⟨some "u1", some "a@b.com", none, none⟩ 7
        ⟨[], [("u1", ⟨"u1", "x@y.z", none, none, 6, 7776006⟩)],
          [("u1", ⟨"u1", "x@y.z", none, none, 6, 7776006⟩)]⟩ =
      ⟨.resp ⟨200, .userMsg "User already exists"
          ⟨"u1", "x@y.z", none, none, 6, 7776006⟩⟩,
        [("u1", ⟨"u1", "x@y.z", none, none, 6, 7776006⟩)], true⟩ :=
  (create_race_recovered ⟨some "u1", some "a@b.com", none, none⟩ 7
    [] [("u1", ⟨"u1", "x@y.z", none, none, 6, 7776006⟩)]
    [("u1", ⟨"u1", "x@y.z", none, none, 6, 7776006⟩)]
    ⟨"u1", "x@y.z", none, none, 6, 7776006⟩
    ⟨"u1", "x@y.z", none, none, 6, 7776006⟩
    ⟨some "a1", some "f.png", none⟩ 7
    [] [("a1", ⟨"a1", "f.png", "c", "k", "b", "pending", 6, 2592006⟩)]
    [("a1", ⟨"a1", "f.png", "c", "k", "b", "pending", 6, 2592006⟩)]
    "b" "url"
    ⟨"a1", "f.png", "c", "k", "b", "pending", 6, 2592006⟩
    ⟨"a1", "f.png", "c", "k", "b", "pending", 6, 2592006⟩
    rfl rfl rfl rfl rfl rfl rfl rfl rfl rfl).1

/-- Claim C8: creation postconditions. A new user item has
ttl = createdAt + 7776000 and the first POST returns 201 with it, while
repeating the identical POST returns 200 with the same stored item, whose
createdAt is the first-call time; a new asset item has
ttl = createdAt + 2592000 (30 days), contentType defaulting to
application/octet-stream when the body supplies none, s3Key derived as
assets/assetId/fileName, initial status pending, and the first POST
returns 201 with it. -/
theorem create_postconditions (ub : CreateUserBody) (now : Int)
    (s : UserStore) (ab : UploadAssetBody) (anow : Int) (t : AssetStore)
    (bucket url : String)
    (hu : truthy ub.userId = true) (he : truthy ub.email = true)
    (hnew : s.lookup (ub.userId.getD "") = none)
    (ha : truthy ab.assetId = true) (hf : truthy ab.fileName = true)
    (hanew : t.lookup (ab.assetId.getD "") = none) :
    (createUserSeq ub now s).result =
      .resp ⟨201, .userMsg "User created" (mkUser ub now)⟩ ∧
    (mkUser ub now).ttl = (mkUser ub now).createdAt + 7776000 ∧
    (mkUser ub now).createdAt = now ∧
    (∀ n₂ : Int,
      (createUserSeq ub n₂ (createUserSeq ub now s).finalStore).result =
        .resp ⟨200, .userMsg "User already exists" (mkUser ub now)⟩) ∧
    (uploadAssetSeq ab anow bucket url t).result =
      .resp ⟨201, .assetCreated "Asset metadata created"
        (mkAsset ab anow bucket) url⟩ ∧
    (mkAsset ab anow bucket).ttl = (mkAsset ab anow bucket).createdAt + 2592000 ∧
    (truthy ab.contentType = false →
      (mkAsset ab anow bucket).contentType = "application/octet-stream") ∧
    (mkAsset ab anow bucket).s3Key =
      "assets/" ++ ab.assetId.getD "" ++ "/" ++ ab.fileName.getD "" ∧
    (mkAsset ab anow bucket).status = "pending" := by
  have h1 : createUserSeq ub now s =
      ⟨.resp ⟨201, .userMsg "User created" (mkUser ub now)⟩,
        (ub.userId.getD "", mkUser ub now) :: s, true⟩ := by
    simp [createUserSeq, createUser, hu, he, hnew]
  refine ⟨by simp [h1], by simp [mkUser], by simp [mkUser], ?_, ?_, ?_, ?_,
    by simp [mkAsset], by simp [mkAsset]⟩
  · intro n₂
    rw [h1]
    simp [createUserSeq, createUser, hu, he, List.lookup]
  · simp [uploadAssetSeq, uploadAsset, ha, hf, hanew]
  · simp [mkAsset]
  · intro hct
    simp [mkAsset, resolveContentType, hct]

/-- Witness for create_postconditions: concrete first and second user
creates with the stated ttl arithmetic. -/
theorem create_postconditions_witness :
    (createUserSeq ⟨some "u1", some "a@b.com", none, none⟩ 10 []).result =
      .resp ⟨201, .userMsg "User created"
        (mkUser ⟨some "u1", some "a@b.com", none, none⟩ 10)⟩ ∧
    (mkUser ⟨some "u1", some "a@b.com", none, none⟩ 10).ttl =
      (mkUser ⟨some "u1", some "a@b.com", none, none⟩ 10).createdAt + 7776000 :=
  ⟨(create_postconditions ⟨some "u1", some "a@b.com", none, none⟩ 10 []
      ⟨some "a1", some "f.png", none⟩ 10 [] "b" "url"
      rfl rfl rfl rfl rfl rfl).1,
    (create_postconditions ⟨some "u1", some "a@b.com", none, none⟩ 10 []
      ⟨some "a1", some "f.png", none⟩ 10 [] "b" "url"
      rfl rfl rfl rfl rfl rfl).2.1⟩

/-- Claim C9: required-field validation is a truthiness check. An
empty-string userId or email on a user create (and an empty-string
assetId or fileName on an asset create) is rejected with 400 exactly as
when the field is absent; an empty-string contentType is replaced by the
application/octet-stream default in the stored asset item; an
empty-string name or department is omitted from the stored user item. -/
theorem truthiness_boundary :
    (∀ (e n d : Option String) (now : Int) (s : UserStore),
      createUserSeq ⟨some "", e, n, d⟩ now s =
        createUserSeq ⟨none, e, n, d⟩ now s ∧
      (createUserSeq ⟨some "", e, n, d⟩ now s).result =
        .resp ⟨400, .errMsg "userId and email are required"⟩) ∧
    (∀ (uidO n d : Option String) (now : Int) (s : UserStore),
      createUserSeq ⟨uidO, some "", n, d⟩ now s =
        createUserSeq ⟨uidO, none, n, d⟩ now s ∧
      (createUserSeq ⟨uidO, some "", n, d⟩ now s).result =
        .resp ⟨400, .errMsg "userId and email are required"⟩) ∧
    (∀ (fn ct : Option String) (now : Int) (bucket url : String)
        (t : AssetStore),
      uploadAssetSeq ⟨some "", fn, ct⟩ now bucket url t =
        uploadAssetSeq ⟨none, fn, ct⟩ now bucket url t ∧
      (uploadAssetSeq ⟨some "", fn, ct⟩ now bucket url t).result =
        .resp ⟨400, .errMsg "assetId and fileName are required"⟩) ∧
    (∀ (aidO ct : Option String) (now : Int) (bucket url : String)
        (t : AssetStore),
      uploadAssetSeq ⟨aidO, some "", ct⟩ now bucket url t =
        uploadAssetSeq ⟨aidO, none, ct⟩ now bucket url t ∧
      (uploadAssetSeq ⟨aidO, some "", ct⟩ now bucket url t).result =
        .resp ⟨400, .errMsg "assetId and fileName are required"⟩) ∧
    (∀ (aid fn : Option String) (now : Int) (bucket : String),
      (mkAsset ⟨aid, fn, some ""⟩ now bucket).contentType =
        "application/octet-stream" ∧
      (mkAsset ⟨aid, fn, none⟩ now bucket).contentType =
        "application/octet-stream") ∧
    (∀ (uid em d : Option String) (now : Int),
      (mkUser ⟨uid, em, some "", d⟩ now).name = none ∧
      (mkUser ⟨uid, em, none, d⟩ now).name = none) ∧
    (∀ (uid em n : Option String) (now : Int),
      (mkUser ⟨uid, em, n, some ""⟩ now).department = none ∧
      (mkUser ⟨uid, em, n, none⟩ now).department = none) := by
  refine ⟨fun e n d now s => ⟨?_, ?_⟩, fun uidO n d now s => ⟨?_, ?_⟩,
    fun fn ct now bucket url t => ⟨?_, ?_⟩,
    fun aidO ct now bucket url t => ⟨?_, ?_⟩,
    fun aid fn now bucket => ⟨?_, ?_⟩, fun uid em d now => ⟨?_, ?_⟩,
    fun uid em n now => ⟨?_, ?_⟩⟩ <;>
  simp [createUserSeq, createUser, uploadAssetSeq, uploadAsset, mkUser,
    mkAsset, resolveContentType, truthy]

/-! ## Theorems about updateUser -/

lemma colon_append_inj {a b : String} (h : ":" ++ a = ":" ++ b) : a = b := by
  have h2 := congrArg String.data h
  simp [String.data_append] at h2
  exact String.ext h2

lemma assocInsert_lookup_self (m : List (String × JVal)) (k : String)
    (v : JVal) : (assocInsert m k v).lookup k = some v := by
  induction m with
  | nil => simp [assocInsert, List.lookup]
  | cons p rest ih =>
    obtain ⟨k₀, v₀⟩ := p
    by_cases h : k₀ = k
    · simp [assocInsert, h, List.lookup]
    · have hb : (k == k₀) = false := beq_eq_false_iff_ne.mpr (Ne.symm h)
      simp only [assocInsert, if_neg h]
      simp [List.lookup, hb, ih]

lemma assocInsert_lookup_ne (m : List (String × JVal)) (k : String) (v : JVal)
    (ph : String) (h : ph ≠ k) :
    (assocInsert m k v).lookup ph = m.lookup ph := by
  have hb : (ph == k) = false := beq_eq_false_iff_ne.mpr h
  induction m with
  | nil => simp [assocInsert, List.lookup, hb]
  | cons p rest ih =>
    obtain ⟨k₀, v₀⟩ := p
    by_cases hp : k₀ = k
    · subst hp
      simp [assocInsert, List.lookup, hb]
    · simp only [assocInsert, if_neg hp]
      simp [List.lookup, ih]

lemma buildAttrs_lookup_of_fresh (body : UBody) (m : List (String × JVal))
    (ph : String) (h : ∀ kv ∈ body, (":" ++ kv.1) ≠ ph) :
    (buildAttrs m body).lookup ph = m.lookup ph := by
  induction body generalizing m with
  | nil => rfl
  | cons kv rest ih =>
    by_cases hk : kv.1 = "userId"
    · simp only [buildAttrs, if_pos hk]
      exact ih m fun p hp => h p (List.mem_cons_of_mem _ hp)
    · simp only [buildAttrs, if_neg hk]
      rw [ih _ fun p hp => h p (List.mem_cons_of_mem _ hp)]
      exact assocInsert_lookup_ne _ _ _ _
        fun hc => h kv (List.mem_cons_self _ _) (hc ▸ rfl)

lemma appliedSets_tail (body : UBody) (m : List (String × JVal))
    (hnd : (body.map Prod.fst).Nodup) :
    (buildSets body).map (fun p => (p.1, (buildAttrs m body).lookup p.2)) =
      (body.filter fun kv => kv.1 ≠ "userId").map fun kv => (kv.1, some kv.2) := by
  induction body generalizing m with
  | nil => rfl
  | cons kv rest ih =>
    have hnd' : (rest.map Prod.fst).Nodup :=
      (List.nodup_cons.mp (by simpa using hnd)).2
    have hki : kv.1 ∉ rest.map Prod.fst :=
      (List.nodup_cons.mp (by simpa using hnd)).1
    by_cases hk : kv.1 = "userId"
    · simp only [buildSets, buildAttrs, if_pos hk]
      rw [List.filter_cons_of_neg (by simp [hk])]
      exact ih m hnd'
    · simp only [buildSets, buildAttrs, if_neg hk]
      rw [List.filter_cons_of_pos (by simp [hk])]
      simp only [List.map_cons]
      have hfresh : ∀ p ∈ rest, (":" ++ p.1) ≠ (":" ++ kv.1) := by
        intro p hp hc
        exact hki (colon_append_inj hc ▸ List.mem_map_of_mem Prod.fst hp)
      have hval : (buildAttrs (assocInsert m (":" ++ kv.1) kv.2) rest).lookup
          (":" ++ kv.1) = some kv.2 := by
        rw [buildAttrs_lookup_of_fresh rest _ _ hfresh, assocInsert_lookup_self]
      rw [List.cons_eq_cons]
      exact ⟨by rw [hval], ih _ hnd'⟩

lemma buildSets_keys_ne_userId (body : UBody) :
    ∀ p ∈ buildSets body, p.1 ≠ "userId" := by
  induction body with
  | nil => simp [buildSets]
  | cons kv rest ih =>
    by_cases hk : kv.1 = "userId"
    · simpa [buildSets, if_pos hk] using ih
    · intro p hp
      rw [buildSets, if_neg hk] at hp
      rcases List.mem_cons.mp hp with h | h
      · rw [h]
        exact hk
      · exact ih p h

lemma appliedSets_eq (body : UBody) (now : Int)
    (hnd : (body.map Prod.fst).Nodup)
    (hupd : "updatedAt" ∉ body.map Prod.fst) :
    appliedSets body now =
      ("updatedAt", some (JVal.n now)) ::
        ((body.filter fun kv => kv.1 ≠ "userId").map fun kv =>
          (kv.1, some kv.2)) := by
  unfold appliedSets buildUpdate
  simp only [List.map_cons]
  rw [List.cons_eq_cons]
  constructor
  · have hfresh : ∀ kv ∈ body, (":" ++ kv.1) ≠ ":updatedAt" := by
      intro kv hkv hc
      have h1 : (":" ++ kv.1 : String) = ":" ++ "updatedAt" := hc
      exact hupd ((colon_append_inj h1) ▸ List.mem_map_of_mem Prod.fst hkv)
    rw [buildAttrs_lookup_of_fresh body _ _ hfresh]
    simp [List.lookup]
  · exact appliedSets_tail body _ hnd

/-- Claim C6, counterexample: updatedAt is not always set to the current
time. When the caller itself supplies an updatedAt field, the loop over
the body entries overwrites the :updatedAt binding in the
expression-attribute-values object with the caller value (and pushes a
duplicate updatedAt SET clause), so the command applies the caller value
999 rather than the current time 1000, and the command is sent against an
existing record. -/
theorem updateUser_caller_updatedAt_overrides :
    ("updatedAt", some (JVal.n 1000)) ∉
      appliedSets [("updatedAt", JVal.n 999)] 1000 ∧
    appliedSets [("updatedAt", JVal.n 999)] 1000 =
      [("updatedAt", some (JVal.n 999)), ("updatedAt", some (JVal.n 999))] ∧
    (updateUser [("updatedAt", JVal.n 999)] 1000
        [("u1", ⟨"u1", "a@b.com", none, none, 5, 7776005⟩)] "u1"
        []).updateSent = true := by
  decide

/-- Claim C6, amended: for an update on an existing record, the userId
field never appears in the applied field set; provided the caller does
not itself supply an updatedAt field (whose value would override the
:updatedAt binding), updatedAt is bound to the current time and every
other supplied field is applied verbatim, in order; when no record exists
for the identifier, the pre-read yields 404 before any UpdateCommand is
sent; when a record exists, the command is sent and 200 is returned. -/
theorem updateUser_contract (body : UBody) (now : Int)
    (hnd : (body.map Prod.fst).Nodup)
    (hupd : "updatedAt" ∉ body.map Prod.fst) :
    (∀ p ∈ appliedSets body now, p.1 ≠ "userId") ∧
    appliedSets body now =
      ("updatedAt", some (JVal.n now)) ::
        ((body.filter fun kv => kv.1 ≠ "userId").map fun kv =>
          (kv.1, some kv.2)) ∧
    (∀ (s : UserStore) (id : String) (attrs : List (String × JVal)),
      s.lookup id = none →
        updateUser body now s id attrs =
          ⟨.resp ⟨404, .errMsg "User not found"⟩, false, [], []⟩) ∧
    (∀ (s : UserStore) (id : String) (attrs : List (String × JVal)) (u : User),
      s.lookup id = some u →
        (updateUser body now s id attrs).result =
          .resp ⟨200, .updatedAttrs attrs⟩ ∧
        (updateUser body now s id attrs).updateSent = true) := by
  refine ⟨?_, appliedSets_eq body now hnd hupd, ?_, ?_⟩
  · intro p hp
    unfold appliedSets buildUpdate at hp
    simp only [List.map_cons, List.mem_cons, List.mem_map] at hp
    rcases hp with h | ⟨q, hq, rfl⟩
    · rw [h]
      show ("updatedAt" : String) ≠ "userId"
      decide
    · exact buildSets_keys_ne_userId body q hq
  · intro s id attrs hs
    simp [updateUser, hs]
  · intro s id attrs u hs
    simp [updateUser, hs]

/-- Witness for updateUser_contract at a concrete single-field update. -/
theorem updateUser_contract_witness :
    appliedSets [("department", JVal.s "X")] 42 =
      [("updatedAt", some (JVal.n 42)), ("department", some (JVal.s "X"))] :=
  ((updateUser_contract [("department", JVal.s "X")] 42 (by decide)
    (by decide)).2.1).trans (by decide)

/-! ## Theorems about the handler boundary -/

lemma usersHandler_ok (ev : Event) (b : UBody) (run : UsersOp → HResult) :
    usersHandler ev (.ok b) run =
      match usersDispatch ev
          (match ev.rawBody with | some _ => b | none => []) with
      | some op =>
        match run op with
        | .resp r => .resp r
        | .thrown _ => .resp ⟨500, .errMsg "Internal server error"⟩
      | none => .resp ⟨405, .errMsg "Method not allowed"⟩ := by
  cases h : ev.rawBody with
  | none =>
    simp only [usersHandler, h]
    cases hd : usersDispatch ev [] with
    | none => rfl
    | some op => cases hr : run op <;> rfl
  | some s =>
    simp only [usersHandler, h]
    cases hd : usersDispatch ev b with
    | none => rfl
    | some op => cases hr : run op <;> rfl

lemma assetsHandler_ok (ev : Event) (b : UBody) (run : AssetsOp → HResult) :
    assetsHandler ev (.ok b) run =
      match assetsDispatch ev
          (match ev.rawBody with | some _ => b | none => []) with
      | some op =>
        match run op with
        | .resp r => .resp r
        | .thrown _ => .resp ⟨500, .errMsg "Internal server error"⟩
      | none => .resp ⟨405, .errMsg "Method not allowed"⟩ := by
  cases h : ev.rawBody with
  | none =>
    simp only [assetsHandler, h]
    cases hd : assetsDispatch ev [] with
    | none => rfl
    | some op => cases hr : run op <;> rfl
  | some s =>
    simp only [assetsHandler, h]
    cases hd : assetsDispatch ev b with
    | none => rfl
    | some op => cases hr : run op <;> rfl

/-- Claim C7, counterexample: the handlers can propagate an exception to
their caller. The JSON.parse of the request body runs before the try
block in both handlers, so a request with a malformed JSON body (whose
parse throws a SyntaxError) makes the handler propagate that exception
instead of returning any response. -/
theorem handler_propagates_parse_error :
    usersHandler ⟨"POST", none, none, some "not json"⟩
        (.error ⟨"SyntaxError"⟩) (fun _ => .resp ⟨200, .msgOnly "ok"⟩) =
      .thrown ⟨"SyntaxError"⟩ ∧
    assetsHandler ⟨"POST", none, none, some "not json"⟩
        (.error ⟨"SyntaxError"⟩) (fun _ => .resp ⟨200, .msgOnly "ok"⟩) =
      .thrown ⟨"SyntaxError"⟩ := by
  constructor <;> rfl

/-- Claim C7, amended: provided the body parse step does not throw (the
request has no body, or parsing succeeds), both handlers always return a
response — never an exception — and any exception thrown by the
dispatched operation inside the try block is caught at the boundary and
converted to the generic 500 internal-server-error response. -/
theorem handler_catchall (ev : Event) (b : UBody)
    (runU : UsersOp → HResult) (runA : AssetsOp → HResult) :
    (∃ r : Response, usersHandler ev (.ok b) runU = .resp r) ∧
    (∃ r : Response, assetsHandler ev (.ok b) runA = .resp r) ∧
    (∀ (op : UsersOp) (e : JsError),
      usersDispatch ev (match ev.rawBody with | some _ => b | none => []) =
        some op →
      runU op = .thrown e →
      usersHandler ev (.ok b) runU =
        .resp ⟨500, .errMsg "Internal server error"⟩) ∧
    (∀ (op : AssetsOp) (e : JsError),
      assetsDispatch ev (match ev.rawBody with | some _ => b | none => []) =
        some op →
      runA op = .thrown e →
      assetsHandler ev (.ok b) runA =
        .resp ⟨500, .errMsg "Internal server error"⟩) := by
  refine ⟨?_, ?_, ?_, ?_⟩
  · rw [usersHandler_ok]
    cases hd : usersDispatch ev
        (match ev.rawBody with | some _ => b | none => []) with
    | none => exact ⟨_, rfl⟩
    | some op =>
      cases hr : runU op with
      | resp r => exact ⟨r, by simp only [hr]⟩
      | thrown e =>
        exact ⟨⟨500, .errMsg "Internal server error"⟩, by simp only [hr]⟩
  · rw [assetsHandler_ok]
    cases hd : assetsDispatch ev
        (match ev.rawBody with | some _ => b | none => []) with
    | none => exact ⟨_, rfl⟩
    | some op =>
      cases hr : runA op with
      | resp r => exact ⟨r, by simp only [hr]⟩
      | thrown e =>
        exact ⟨⟨500, .errMsg "Internal server error"⟩, by simp only [hr]⟩
  · intro op e hd hr
    rw [usersHandler_ok]
    simp only [hd, hr]
  · intro op e hd hr
    rw [assetsHandler_ok]
    simp only [hd, hr]

/-- Witness for handler_catchall: a concrete POST whose create operation
throws is converted to the generic 500 response. -/
theorem handler_catchall_witness :
    usersHandler ⟨"POST", none, none, some "x"⟩ (.ok [])
        (fun _ => .thrown ⟨"Boom"⟩) =
      .resp ⟨500, .errMsg "Internal server error"⟩ :=
  (handler_catchall ⟨"POST", none, none, some "x"⟩ []
    (fun _ => .thrown ⟨"Boom"⟩) (fun _ => .thrown ⟨"Boom"⟩)).2.2.1
    (.create []) ⟨"Boom"⟩ rfl rfl

end ServerlessAPI
